import Mathlib

set_option maxRecDepth 16384

/-!
Shallow embedding of the card-limit / FAQ tutorial application
(`IntensivoNextEReact`) and proofs about its specification.

Modelling conventions, applied uniformly:

* JavaScript numbers are modelled by the type `JSNum`: a finite value
  (a rational) or `NaN`, on which every order comparison is false, any
  arithmetic yields `NaN`, and strict equality is false, exactly as in
  JavaScript.  The CardLimit domain is modelled twice: `CardLimitJS`, with
  arbitrary `JSNum` fields and arguments, is the faithful model, and
  `CardLimit`, with rational fields, is its finite fragment; refinement
  lemmas show the two agree on finite records.  Claims whose statements
  are restricted to finite values use the fragment.  Float rounding and
  infinities are outside the model; NaN-producing inputs such as
  `create(Infinity)` behave like the `create(NaN)` cases proved here.
* JavaScript strings are modelled by `String`, with the string operations
  used by the code (`toLowerCase`, `trim`, `includes`, lexicographic
  comparison) defined explicitly on the underlying character lists.
  `toLowerCase` is modelled for the Basic-Latin and Latin-1 letters, which
  covers every character occurring in this repository.
* The two Next.js API handlers are pure functions from a request value to a
  response value.  `req.query` entries are `string | string[] | undefined`,
  modelled by `Option QueryVal`.  The simulated network delay and the
  `timestamp` / `details` metadata are environment-dependent and omitted;
  status code and body shape are kept.  The `try`/`catch` wrappers cannot
  fire in the pure model, so the 500 branch is unreachable here.
* `Array.prototype.sort` mutates the array in place.  The list handler
  aliases the module-level `MOCK_FAQS` array whenever `searchFAQs` returns
  it directly, so the handler is modelled together with the value the
  module array holds after the request (`FaqsOutcome.mockAfter`).
-/

/-! ## JavaScript string primitives -/

/-- Lower-casing of one character, as `String.prototype.toLowerCase` acts on
the Basic-Latin (A-Z) and Latin-1 (À-Þ, except ×) ranges.  Every character
appearing in this repository falls in these ranges. -/
def jsCharLower (c : Char) : Char :=
  if 65 ≤ c.toNat ∧ c.toNat ≤ 90 then Char.ofNat (c.toNat + 32)
  else if 192 ≤ c.toNat ∧ c.toNat ≤ 222 ∧ c.toNat ≠ 215 then Char.ofNat (c.toNat + 32)
  else c

/-- Model of `s.toLowerCase()`. -/
def jsLower (s : String) : String := String.mk (s.data.map jsCharLower)

/-- Removal of leading and trailing whitespace from a character list, the
action of `String.prototype.trim`. -/
def trimChars (l : List Char) : List Char :=
  ((l.dropWhile Char.isWhitespace).reverse.dropWhile Char.isWhitespace).reverse

/-- Model of `s.trim()`. -/
def jsTrim (s : String) : String := String.mk (trimChars s.data)

/-- Boolean test that `q` starts the list `l`, used to define substring
search. -/
def begMatch : List Char → List Char → Bool
  | [], _ => true
  | _ :: _, [] => false
  | a :: as, b :: bs => a == b && begMatch as bs

/-- Boolean test that `q` occurs contiguously inside `l`. -/
def segMatch (q : List Char) : List Char → Bool
  | [] => q.isEmpty
  | b :: bs => begMatch q (b :: bs) || segMatch q bs

/-- Model of `s.includes(target)`. -/
def jsIncludes (s target : String) : Bool := segMatch target.data s.data

/-- Proposition that `q` occurs contiguously inside `l` (the specification
counterpart of `segMatch`). -/
def SegOccurs (q l : List Char) : Prop := ∃ s t, l = s ++ q ++ t

/-- Lexicographic order on character lists by code point.  It models both
the relative order of `getTime()` values of the fixed-format ISO-8601
timestamps stored in `MOCK_FAQS` and, on this data set, the sign of
`localeCompare`. -/
def lexLe : List Char → List Char → Bool
  | [], _ => true
  | _ :: _, [] => false
  | a :: as, b :: bs =>
    if a.toNat < b.toNat then true
    else if b.toNat < a.toNat then false
    else lexLe as bs

/-! ## JavaScript numbers with NaN -/

/-- A JavaScript number as far as the card-limit validator observes it: a
finite value (modelled as a rational) or `NaN`. -/
inductive JSNum where
  | nan : JSNum
  | num (q : ℚ) : JSNum
deriving DecidableEq

namespace JSNum

/-- Model of `Number.isNaN`. -/
def isNaNb : JSNum → Bool
  | nan => true
  | num _ => false

/-- Model of `<` on JavaScript numbers: any comparison with NaN is false. -/
def ltb : JSNum → JSNum → Bool
  | num a, num b => a < b
  | _, _ => false

/-- Model of `<=` on JavaScript numbers. -/
def leb : JSNum → JSNum → Bool
  | num a, num b => a ≤ b
  | _, _ => false

/-- Model of `>` on JavaScript numbers. -/
def gtb : JSNum → JSNum → Bool
  | num a, num b => b < a
  | _, _ => false

/-- Model of `>=` on JavaScript numbers. -/
def geb : JSNum → JSNum → Bool
  | num a, num b => b ≤ a
  | _, _ => false

end JSNum

/-! ## Domain model: CardLimit
(`src/types/domain/CardLimit.ts`, re-exported next to `IOSCard.tsx`) -/

/-- The `CardLimit` record restricted to finite field values.  The
TypeScript fields are `number`, which also admits `NaN`; the fully
faithful model with arbitrary `JSNum` fields is `CardLimitJS` below, and
the refinement lemmas `validateLimitJS_toJS` and `canUpdateToJS_toJS`
state that on finite records the two models agree.  Claims whose scope is
finite records use this fragment. -/
structure CardLimit where
  currentLimit : ℚ
  usedAmount : ℚ
  availableAmount : ℚ
  minAllowedLimit : ℚ
  maxAllowedLimit : ℚ
deriving DecidableEq

/-- The three validation messages `validateLimit` can produce.  The
locale-formatted amounts interpolated into the user-facing strings are kept
as data; the pt-BR digit formatting itself is presentation and not
modelled. -/
inductive LimitError where
  | notNumeric : LimitError
  | belowMinimum (usedAmount : ℚ) : LimitError
  | aboveMaximum (maxAllowed : ℚ) : LimitError
deriving DecidableEq

namespace CardLimitDomain

/-- Source: `CardLimitDomain.create`. -/
def create (usedAmount : ℚ) : CardLimit :=
  { currentLimit := usedAmount
    usedAmount := usedAmount
    availableAmount := 0
    minAllowedLimit := usedAmount
    maxAllowedLimit := 50000 }

/-- Source: `CardLimitDomain.canUpdateTo`. -/
def canUpdateTo (limit : CardLimit) (newAmount : JSNum) : Bool :=
  newAmount.geb (.num limit.minAllowedLimit) &&
    newAmount.leb (.num limit.maxAllowedLimit) &&
    !newAmount.isNaNb

/-- Source: `CardLimitDomain.withNewLimit`. -/
def withNewLimit (limit : CardLimit) (newAmount : ℚ) : CardLimit :=
  { limit with
    currentLimit := newAmount
    availableAmount := newAmount - limit.usedAmount }

/-- Source: `CardLimitDomain.validateLimit`. -/
def validateLimit (limit : CardLimit) (newAmount : JSNum) : Option LimitError :=
  if newAmount.isNaNb then some .notNumeric
  else if newAmount.ltb (.num limit.minAllowedLimit) then
    some (.belowMinimum limit.usedAmount)
  else if newAmount.gtb (.num limit.maxAllowedLimit) then
    some (.aboveMaximum limit.maxAllowedLimit)
  else none

end CardLimitDomain

/-- The data-model invariant of section 3 of the specification, over the
finite fragment. -/
def hasInvariant (limit : CardLimit) : Prop :=
  limit.availableAmount = limit.currentLimit - limit.usedAmount

/-! ## Fully faithful model of CardLimit

The TypeScript field and argument type `number` admits `NaN` — for example
`create(NaN)` is reachable through `useCardLimit({ initialUsedAmount:
NaN })` — so claims that quantify over every record or every argument are
settled over `CardLimitJS`, whose fields are arbitrary `JSNum` values. -/

/-- Subtraction of JavaScript numbers: any operation involving NaN yields
NaN. -/
def JSNum.sub : JSNum → JSNum → JSNum
  | .num a, .num b => .num (a - b)
  | _, _ => .nan

/-- Strict equality of JavaScript numbers: NaN is equal to nothing, itself
included. -/
def JSNum.eqb : JSNum → JSNum → Bool
  | .num a, .num b => a == b
  | _, _ => false

/-- The `CardLimit` record with fields that may be NaN. -/
structure CardLimitJS where
  currentLimit : JSNum
  usedAmount : JSNum
  availableAmount : JSNum
  minAllowedLimit : JSNum
  maxAllowedLimit : JSNum
deriving DecidableEq

/-- The validation messages of `validateLimit` over the faithful model. -/
inductive LimitErrorJS where
  | notNumeric : LimitErrorJS
  | belowMinimum (usedAmount : JSNum) : LimitErrorJS
  | aboveMaximum (maxAllowed : JSNum) : LimitErrorJS
deriving DecidableEq

namespace CardLimitDomainJS

/-- Source: `CardLimitDomain.create`, on arbitrary JavaScript numbers. -/
def create (usedAmount : JSNum) : CardLimitJS :=
  { currentLimit := usedAmount
    usedAmount := usedAmount
    availableAmount := .num 0
    minAllowedLimit := usedAmount
    maxAllowedLimit := .num 50000 }

/-- Source: `CardLimitDomain.canUpdateTo`, on arbitrary JavaScript
numbers. -/
def canUpdateTo (limit : CardLimitJS) (newAmount : JSNum) : Bool :=
  newAmount.geb limit.minAllowedLimit &&
    newAmount.leb limit.maxAllowedLimit &&
    !newAmount.isNaNb

/-- Source: `CardLimitDomain.withNewLimit`, on arbitrary JavaScript
numbers. -/
def withNewLimit (limit : CardLimitJS) (newAmount : JSNum) : CardLimitJS :=
  { limit with
    currentLimit := newAmount
    availableAmount := newAmount.sub limit.usedAmount }

/-- Source: `CardLimitDomain.validateLimit`, on arbitrary JavaScript
numbers. -/
def validateLimit (limit : CardLimitJS) (newAmount : JSNum) : Option LimitErrorJS :=
  if newAmount.isNaNb then some .notNumeric
  else if newAmount.ltb limit.minAllowedLimit then
    some (.belowMinimum limit.usedAmount)
  else if newAmount.gtb limit.maxAllowedLimit then
    some (.aboveMaximum limit.maxAllowedLimit)
  else none

end CardLimitDomainJS

/-- The data-model invariant in the faithful model, read as the JavaScript
strict equality availableAmount === currentLimit - usedAmount. -/
def hasInvariantJS (limit : CardLimitJS) : Prop :=
  JSNum.eqb limit.availableAmount (limit.currentLimit.sub limit.usedAmount) = true

/-- Embedding of a finite record into the faithful model. -/
def CardLimit.toJS (l : CardLimit) : CardLimitJS :=
  { currentLimit := .num l.currentLimit
    usedAmount := .num l.usedAmount
    availableAmount := .num l.availableAmount
    minAllowedLimit := .num l.minAllowedLimit
    maxAllowedLimit := .num l.maxAllowedLimit }

/-- Embedding of a finite validation message into the faithful model. -/
def LimitError.toJS : LimitError → LimitErrorJS
  | .notNumeric => .notNumeric
  | .belowMinimum u => .belowMinimum (.num u)
  | .aboveMaximum m => .aboveMaximum (.num m)

/-! ## Hook: useCardLimit (`src/hooks/useCardLimit.ts`) and the formatters
it uses (`src/lib/utils/formatters.ts`) -/

/-- Source: `value.replace(/\D/g, '')`: keep only decimal digits. -/
def extractDigits (value : String) : String :=
  String.mk (value.data.filter Char.isDigit)

/-- Source: `digits.padStart(3, '0')`. -/
def padStart3 (s : String) : String :=
  if 3 ≤ s.data.length then s
  else String.mk (List.replicate (3 - s.data.length) '0' ++ s.data)

/-- Numeric value of a string of decimal digits; models the `Number(...)`
parse that `digitsToReais` performs on its digit-only input. -/
def digitsToNat (s : String) : ℕ :=
  s.data.foldl (fun n c => 10 * n + (c.toNat - 48)) 0

/-- Source: `digitsToReais`: converts a string of digits (cents) to a decimal
amount, for example "123456" to 1234.56. -/
def digitsToReais (digits : String) : ℚ :=
  if digits = "" then 0
  else
    let padded := padStart3 digits
    let intPart := String.mk (padded.data.take (padded.data.length - 2))
    let decimalPart := String.mk (padded.data.drop (padded.data.length - 2))
    (digitsToNat intPart : ℚ) + (digitsToNat decimalPart : ℚ) / 100

/-- Source: `CardLimitState` of the reducer. -/
structure CardLimitState where
  limit : CardLimit
  inputValue : String
  numericValue : ℚ
  validationError : Option LimitError
  isDirty : Bool

/-- Source: `CardLimitAction`. -/
inductive CardLimitAction where
  | setInput (payload : String) : CardLimitAction
  | validate : CardLimitAction
  | reset : CardLimitAction
  | commitChange (payload : ℚ) : CardLimitAction

/-- Source: `cardLimitReducer`.  `String(state.limit.usedAmount * 100)` is modelled
by `toString` on the rational; the claims do not depend on its digits. -/
def cardLimitReducer (state : CardLimitState) (action : CardLimitAction) : CardLimitState :=
  match action with
  | .setInput payload =>
    let digits := extractDigits payload
    let numeric := digitsToReais digits
    { state with
      inputValue := digits
      numericValue := numeric
      isDirty := true
      validationError := CardLimitDomain.validateLimit state.limit (.num numeric) }
  | .validate =>
    { state with
      validationError :=
        CardLimitDomain.validateLimit state.limit (.num state.numericValue) }
  | .reset =>
    { state with
      inputValue := toString (state.limit.usedAmount * 100)
      numericValue := state.limit.usedAmount
      validationError := none
      isDirty := false }
  | .commitChange payload =>
    { state with
      limit := CardLimitDomain.withNewLimit state.limit payload
      validationError := none
      isDirty := false }

/-- The `useCardLimit` options, with their default values already applied
(`initialUsedAmount = 4000`, `maxLimit = 50000`); the claims quantify over
all option values. -/
structure UseCardLimitOptions where
  initialUsedAmount : ℚ := 4000
  maxLimit : ℚ := 50000

/-- The initial reducer state built inside `useCardLimit`. -/
def initialState (opts : UseCardLimitOptions) : CardLimitState :=
  let initialLimit := CardLimitDomain.create opts.initialUsedAmount
  { limit := { initialLimit with maxAllowedLimit := opts.maxLimit }
    inputValue := toString (opts.initialUsedAmount * 100)
    numericValue := opts.initialUsedAmount
    validationError := none
    isDirty := false }

/-! ## Domain model: FAQ (`src/types/domain/FAQ.ts`) and the mock data
module (`src/lib/mockData/faqs.ts`) -/

/-- The `FAQ` record.  `category` is a string union in TypeScript, modelled
as a string. -/
structure FAQ where
  id : String
  question : String
  answer : String
  category : String
  tags : List String
  helpfulCount : ℕ
  createdAt : String
  updatedAt : String
deriving DecidableEq

/-- First record of `MOCK_FAQS`. -/
def mockFaq1 : FAQ :=
  { id := "faq-1"
    question := "Como aumentar o limite do meu cartão?"
    answer := "Para aumentar o limite do seu cartão, você pode:

1. **Usar a funcionalidade de aumento na tela inicial**
   - Acesse a tela de \"Limite\" no app
   - Defina o novo valor desejado
   - Confirme a solicitação

2. **Critérios para aprovação:**
   - Histórico de pagamentos em dia
   - Limite anterior utilizado adequadamente
   - Tempo mínimo de 6 meses com o cartão

3. **Tempo de análise:**
   - A análise é feita automaticamente
   - Resposta em até 48 horas úteis
   - Você receberá notificação no app

**Dica:** Manter um bom score de crédito aumenta suas chances de aprovação."
    category := "limits"
    tags := ["limite", "aumentar", "cartão", "crédito", "aprovação"]
    helpfulCount := 234
    createdAt := "2024-01-15T10:00:00Z"
    updatedAt := "2024-11-20T15:30:00Z" }

/-- Second record of `MOCK_FAQS`. -/
def mockFaq2 : FAQ :=
  { id := "faq-2"
    question := "Qual o limite mínimo e máximo que posso solicitar?"
    answer := "Os limites variam de acordo com seu perfil:

**Limite Mínimo:**
- R$ 500,00 para novos clientes
- R$ 1.000,00 para clientes com mais de 6 meses

**Limite Máximo:**
- Até R$ 50.000,00 para pessoa física
- Análise baseada em renda e histórico
- Pode ser maior para clientes premium

**Como aumentar seu limite máximo:**
- Mantenha bom histórico de pagamentos
- Use o cartão regularmente
- Atualize suas informações de renda
- Solicite reavaliação a cada 6 meses"
    category := "limits"
    tags := ["limite", "mínimo", "máximo", "valor", "solicitar"]
    helpfulCount := 156
    createdAt := "2024-02-01T11:00:00Z"
    updatedAt := "2024-11-19T16:45:00Z" }

/-- Third record of `MOCK_FAQS`. -/
def mockFaq3 : FAQ :=
  { id := "faq-3"
    question := "Por quanto tempo o limite aumentado fica disponível?"
    answer := "O aumento de limite tem validade variável:

**Aumento Permanente:**
- Aprovado após análise de crédito completa
- Fica disponível indefinidamente
- Pode ser usado a qualquer momento

**Aumento Temporário:**
- Válido por 30 dias
- Útil para compras específicas
- Retorna ao limite anterior após o período
- Disponível 1x a cada 3 meses

**Renovação:**
- Limites permanentes são revistos anualmente
- Você pode solicitar novo aumento após 6 meses
- Mudanças na situação financeira podem afetar o limite"
    category := "limits"
    tags := ["limite", "duração", "validade", "temporário", "permanente"]
    helpfulCount := 98
    createdAt := "2024-02-10T14:00:00Z"
    updatedAt := "2024-11-20T10:15:00Z" }

/-- Fourth record of `MOCK_FAQS`. -/
def mockFaq4 : FAQ :=
  { id := "faq-4"
    question := "Minha solicitação foi negada, o que fazer?"
    answer := "Se seu pedido de aumento foi negado:

**Motivos comuns:**
- Histórico de atrasos nos pagamentos
- Score de crédito baixo
- Renda insuficiente
- Cartão usado há pouco tempo (menos de 6 meses)
- Limite atual subutilizado

**O que você pode fazer:**
1. Aguarde 90 dias para nova solicitação
2. Pague suas faturas sempre em dia
3. Utilize pelo menos 30% do limite atual
4. Atualize suas informações de renda
5. Consulte e melhore seu score de crédito

**Alternativas:**
- Solicite um limite temporário menor
- Use a função de parcelamento para compras grandes
- Entre em contato com o suporte para mais detalhes"
    category := "limits"
    tags := ["limite", "negado", "recusado", "reprovado", "tentar novamente"]
    helpfulCount := 187
    createdAt := "2024-03-01T09:30:00Z"
    updatedAt := "2024-11-21T08:20:00Z" }

/-- Fifth record of `MOCK_FAQS`. -/
def mockFaq5 : FAQ :=
  { id := "faq-5"
    question := "Como funciona a análise de crédito para aumento?"
    answer := "A análise de crédito considera diversos fatores:

**Fatores avaliados:**
- Score de crédito (Serasa, SPC, etc)
- Histórico de pagamentos
- Renda mensal declarada
- Tempo de relacionamento com o banco
- Utilização do limite atual
- Dívidas em outras instituições

**Processo automático:**
- Análise feita em tempo real
- Algoritmo de IA avalia seu perfil
- Decisão em até 48 horas
- Não afeta negativamente seu score

**Dados necessários:**
- CPF atualizado
- Comprovante de renda recente
- Endereço atualizado
- Telefone e email válidos

**Transparência:**
- Você pode consultar o motivo da decisão
- Orientações para melhorar seu perfil
- Suporte disponível para dúvidas"
    category := "limits"
    tags := ["análise", "crédito", "score", "aprovação", "critérios"]
    helpfulCount := 145
    createdAt := "2024-03-15T13:00:00Z"
    updatedAt := "2024-11-20T12:30:00Z" }

/-- The module-level array `MOCK_FAQS`. -/
def MOCK_FAQS : List FAQ := [mockFaq1, mockFaq2, mockFaq3, mockFaq4, mockFaq5]

/-- Source: `findFAQById`. -/
def findFAQById (id : String) : Option FAQ :=
  MOCK_FAQS.find? (fun faq => faq.id == id)

/-- Source: `filterFAQsByCategory`. -/
def filterFAQsByCategory (category : String) : List FAQ :=
  MOCK_FAQS.filter (fun faq => faq.category == category)

/-- The predicate of the `filter` inside `searchFAQs`: the query occurs in
the lower-cased question, answer, or one of the tags. -/
def searchMatches (query : String) (faq : FAQ) : Bool :=
  jsIncludes (jsLower faq.question) query ||
    jsIncludes (jsLower faq.answer) query ||
    faq.tags.any (fun tag => jsIncludes (jsLower tag) query)

/-- Source: `searchFAQs`.  When the lower-cased, trimmed query is empty it returns
the `MOCK_FAQS` array itself (the very module array, which matters for the
in-place sort in the list handler). -/
def searchFAQs (searchText : String) : List FAQ :=
  let query := jsTrim (jsLower searchText)
  if query = "" then MOCK_FAQS
  else MOCK_FAQS.filter (searchMatches query)

/-! ## API envelope (`src/types/APIResponse.ts`) -/

/-- Source: `APIError`: code and user-facing message.  The optional `details`
payload (stack traces, requested id) is diagnostic metadata and omitted. -/
structure APIError where
  code : String
  message : String
deriving DecidableEq

/-- Source: `APIResponse<T>`: the JSON envelope `{ success, data?, error?, meta? }`.
The `meta` block (totals, server timestamp) is omitted; it is never an
error signal. -/
structure APIResponse (α : Type) where
  success : Bool
  data : Option α
  error : Option APIError
deriving DecidableEq

namespace ApiResponse

/-- Source: `ApiResponse.success`. -/
def ok {α : Type} (data : α) : APIResponse α :=
  { success := true, data := some data, error := none }

/-- Source: `ApiResponse.error`. -/
def err {α : Type} (code message : String) : APIResponse α :=
  { success := false, data := none, error := some { code := code, message := message } }

end ApiResponse

/-- An HTTP reply `res.status(n).json(body)`. -/
structure HttpResponse (α : Type) where
  status : ℕ
  body : APIResponse α
deriving DecidableEq

/-- A `req.query` entry: Next.js delivers `string | string[]` for each
present parameter. -/
inductive QueryVal where
  | str (s : String) : QueryVal
  | strs (l : List String) : QueryVal
deriving DecidableEq

/-- JavaScript truthiness of an optional query value: `undefined` and the
empty string are falsy, every other string and every array is truthy. -/
def queryTruthy : Option QueryVal → Bool
  | none => false
  | some (.str s) => !(s == "")
  | some (.strs _) => true

/-! ## API route: GET /api/faqs -/

/-- A request to `GET /api/faqs` (or another method on the same route). -/
structure FaqsRequest where
  method : String
  search : Option QueryVal
  category : Option QueryVal
  sortBy : Option QueryVal

/-- Stable insertion of one element into a sorted list: `x` goes in front
of the first element `y` with `le x y`. -/
def insertSorted (le : FAQ → FAQ → Bool) (x : FAQ) : List FAQ → List FAQ
  | [] => [x]
  | y :: ys => if le x y then x :: y :: ys else y :: insertSorted le x ys

/-- Stable sort of a FAQ list; models `Array.prototype.sort`, which is
stable, with comparator `cmp` rendered as the relation
`le a b := cmp a b ≤ 0`. -/
def jsSort (le : FAQ → FAQ → Bool) : List FAQ → List FAQ
  | [] => []
  | x :: xs => insertSorted le x (jsSort le xs)

/-- Comparator `(a, b) => b.helpfulCount - a.helpfulCount` (descending by
helpful count). -/
def cmpHelpful (a b : FAQ) : Bool := b.helpfulCount ≤ a.helpfulCount

/-- Comparator `(a, b) => getTime(b.updatedAt) - getTime(a.updatedAt)`; on
the fixed-format ISO timestamps of this module `getTime` order is the
lexicographic order of the strings. -/
def cmpRecent (a b : FAQ) : Bool := lexLe b.updatedAt.data a.updatedAt.data

/-- Comparator `(a, b) => a.question.localeCompare(b.question)`; on this
data set the locale order agrees with code-point order. -/
def cmpAlpha (a b : FAQ) : Bool := lexLe a.question.data b.question.data

/-- Result of one `GET /api/faqs` request served from a freshly loaded
module: the HTTP reply and the value the module-level `MOCK_FAQS` array
holds afterwards (`Array.prototype.sort` mutates in place, and `searchFAQs`
can hand the handler the module array itself). -/
structure FaqsOutcome where
  response : HttpResponse (List FAQ)
  mockAfter : List FAQ
deriving DecidableEq

/-- The `GET /api/faqs` handler (`pages/api/faqs/index.ts`).  The pair
`(faqs, aliased)` tracks the array the local `faqs` variable points to and
whether that array is the module array `MOCK_FAQS` itself. -/
def faqsHandler (req : FaqsRequest) : FaqsOutcome :=
  if req.method ≠ "GET" then
    { response := { status := 405, body := ApiResponse.err "METHOD_NOT_ALLOWED" "Apenas GET é permitido" }
      mockAfter := MOCK_FAQS }
  else
    let step1 : List FAQ × Bool :=
      match req.search with
      | some (QueryVal.str s) =>
        if s == "" then (MOCK_FAQS, false)
        else (searchFAQs s, jsTrim (jsLower s) == "")
      | _ => (MOCK_FAQS, false)
    let step2 : List FAQ × Bool :=
      match req.category with
      | some (QueryVal.str c) =>
        if c == "" then step1
        else
          let categoryFaqs := filterFAQsByCategory c
          if queryTruthy req.search then
            (step1.1.filter (fun faq => categoryFaqs.any (fun cf => cf.id == faq.id)), false)
          else (categoryFaqs, false)
      | _ => step1
    let sortKey : QueryVal := (req.sortBy).getD (QueryVal.str "helpful")
    let sorted : Option (List FAQ) :=
      if sortKey = QueryVal.str "helpful" then some (jsSort cmpHelpful step2.1)
      else if sortKey = QueryVal.str "recent" then some (jsSort cmpRecent step2.1)
      else if sortKey = QueryVal.str "alphabetical" then some (jsSort cmpAlpha step2.1)
      else none
    { response := { status := 200, body := ApiResponse.ok (sorted.getD step2.1) }
      mockAfter := if step2.2 && sorted.isSome then sorted.getD step2.1 else MOCK_FAQS }

/-! ## API route: GET /api/faqs/[id] -/

/-- A request to `GET /api/faqs/[id]`. -/
structure FaqByIdRequest where
  method : String
  id : Option QueryVal

/-- The `GET /api/faqs/[id]` handler (`pages/api/faqs/[id].ts`).  The guard
`!id || typeof id !== 'string'` sends 400 for a missing id, an empty (falsy)
id string, and an array id. -/
def faqByIdHandler (req : FaqByIdRequest) : HttpResponse FAQ :=
  if req.method ≠ "GET" then
    { status := 405, body := ApiResponse.err "METHOD_NOT_ALLOWED" "Apenas GET é permitido" }
  else
    match req.id with
    | some (QueryVal.str id) =>
      if id == "" then
        { status := 400
          body := ApiResponse.err "INVALID_REQUEST" "ID da FAQ é obrigatório e deve ser uma string" }
      else
        match findFAQById id with
        | none =>
          { status := 404
            body := ApiResponse.err "NOT_FOUND"
              ("FAQ com ID \"" ++ id ++ "\" não foi encontrada") }
        | some faq => { status := 200, body := ApiResponse.ok faq }
    | _ =>
      { status := 400
        body := ApiResponse.err "INVALID_REQUEST" "ID da FAQ é obrigatório e deve ser uma string" }

/-! ## Toast (`src/contexts/ToastContext.tsx`, `src/components/Toast/Toast.tsx`,
`src/components/Toast/ToastContainer.tsx`) -/

/-- Source: `ToastType`. -/
inductive ToastType where
  | success : ToastType
  | error : ToastType
  | warning : ToastType
  | info : ToastType
deriving DecidableEq

/-- Source: `ToastPosition`. -/
inductive ToastPosition where
  | top : ToastPosition
  | bottom : ToastPosition
deriving DecidableEq

/-- Source: `ToastState`: the discriminated union held by the provider. -/
inductive ToastState where
  | hidden : ToastState
  | visible (message : String) (ty : ToastType) (position : ToastPosition)
      (duration : ℕ) : ToastState
deriving DecidableEq

/-- The provider props `defaultPosition` / `defaultDuration` (duration in
milliseconds). -/
structure ToastConfig where
  defaultPosition : ToastPosition := .top
  defaultDuration : ℕ := 4000

/-- Source: `show` from `ToastProvider`: the state becomes visible with the given
message, type and position (defaulted from the provider props) and with
`duration = defaultDuration`. -/
def showToast (cfg : ToastConfig) (message : String)
    (ty : ToastType := .info) (position : Option ToastPosition := none) : ToastState :=
  .visible message ty (position.getD cfg.defaultPosition) cfg.defaultDuration

/-- Source: `hide` from `ToastProvider`. -/
def hideToast : ToastState := .hidden

/-- The toast state together with the pending auto-hide timeout of the
`Toast` component (remaining milliseconds, if scheduled). -/
structure ToastSys where
  state : ToastState
  autoHideTimer : Option ℕ
deriving DecidableEq

/-- The effect in `Toast.tsx`: when the toast is visible and its duration
is positive, `setTimeout(() => onClose(), duration)` is scheduled, where
`ToastContainer` passes `onClose = hide`. -/
def runAutoHideEffect : ToastState → ToastSys
  | .hidden => { state := .hidden, autoHideTimer := none }
  | .visible m t p d =>
    { state := .visible m t p d
      autoHideTimer := if 0 < d then some d else none }

/-- One millisecond of elapsed time: a pending timer counts down, and on
reaching its deadline fires `onClose = hide`, leaving the hidden state. -/
def tickMs : ToastSys → ToastSys
  | { state := s, autoHideTimer := none } => { state := s, autoHideTimer := none }
  | { state := s, autoHideTimer := some n } =>
    if n ≤ 1 then { state := hideToast, autoHideTimer := none }
    else { state := s, autoHideTimer := some (n - 1) }

/-- Elapse `ms` milliseconds. -/
def elapse : ℕ → ToastSys → ToastSys
  | 0, sys => sys
  | n + 1, sys => elapse n (tickMs sys)

/-! ## Helper lemmas -/

lemma begMatch_iff (q l : List Char) : begMatch q l = true ↔ ∃ t, l = q ++ t := by
  induction q generalizing l with
  | nil => simp [begMatch]
  | cons a as ih =>
    cases l with
    | nil => simp [begMatch]
    | cons b bs =>
      simp only [begMatch, Bool.and_eq_true, beq_iff_eq, ih, List.cons_append]
      constructor
      · rintro ⟨rfl, t, rfl⟩
        exact ⟨t, rfl⟩
      · rintro ⟨t, h⟩
        injection h with h1 h2
        exact ⟨h1.symm, t, h2⟩

lemma segMatch_iff (q l : List Char) : segMatch q l = true ↔ SegOccurs q l := by
  induction l with
  | nil =>
    simp only [segMatch, List.isEmpty_iff, SegOccurs]
    constructor
    · rintro rfl
      exact ⟨[], [], rfl⟩
    · rintro ⟨s, t, h⟩
      rcases List.append_eq_nil.mp h.symm with ⟨h1, h2⟩
      rcases List.append_eq_nil.mp h1 with ⟨-, h3⟩
      exact h3
  | cons b bs ih =>
    simp only [segMatch, Bool.or_eq_true, begMatch_iff, ih, SegOccurs]
    constructor
    · rintro (⟨t, h⟩ | ⟨s, t, h⟩)
      · exact ⟨[], t, by simpa using h⟩
      · exact ⟨b :: s, t, by simp [h]⟩
    · rintro ⟨s, t, h⟩
      cases s with
      | nil => exact Or.inl ⟨t, by simpa using h⟩
      | cons c s2 =>
        injection h with h1 h2
        exact Or.inr ⟨s2, t, h2⟩

lemma SegOccurs_map (f : Char → Char) {q l : List Char} (h : SegOccurs q l) :
    SegOccurs (q.map f) (l.map f) := by
  rcases h with ⟨s, t, rfl⟩
  exact ⟨s.map f, t.map f, by simp⟩

lemma SegOccurs_trans {q m l : List Char} (h1 : SegOccurs q m) (h2 : SegOccurs m l) :
    SegOccurs q l := by
  rcases h1 with ⟨s1, t1, rfl⟩
  rcases h2 with ⟨s2, t2, rfl⟩
  exact ⟨s2 ++ s1, t1 ++ t2, by simp [List.append_assoc]⟩

lemma trimChars_occurs (l : List Char) : SegOccurs (trimChars l) l := by
  refine ⟨l.takeWhile Char.isWhitespace,
    ((l.dropWhile Char.isWhitespace).reverse.takeWhile Char.isWhitespace).reverse, ?_⟩
  have h2 := List.takeWhile_append_dropWhile Char.isWhitespace
    (l.dropWhile Char.isWhitespace).reverse
  have h3 := congrArg List.reverse h2
  rw [List.reverse_append, List.reverse_reverse] at h3
  have h5 : trimChars l
      ++ ((l.dropWhile Char.isWhitespace).reverse.takeWhile Char.isWhitespace).reverse
      = l.dropWhile Char.isWhitespace := h3
  calc l = l.takeWhile Char.isWhitespace ++ l.dropWhile Char.isWhitespace :=
        (List.takeWhile_append_dropWhile Char.isWhitespace l).symm
    _ = l.takeWhile Char.isWhitespace ++ (trimChars l
        ++ ((l.dropWhile Char.isWhitespace).reverse.takeWhile Char.isWhitespace).reverse) := by
        rw [h5]
    _ = l.takeWhile Char.isWhitespace ++ trimChars l
        ++ ((l.dropWhile Char.isWhitespace).reverse.takeWhile Char.isWhitespace).reverse := by
        rw [List.append_assoc]

lemma cardLimitReducer_keeps_invariant (s : CardLimitState) (a : CardLimitAction)
    (h : hasInvariant s.limit) : hasInvariant ((cardLimitReducer s a).limit) := by
  cases a <;>
    simp only [cardLimitReducer, hasInvariant, CardLimitDomain.withNewLimit] at h ⊢ <;>
    exact h

lemma foldl_reducer_invariant (acts : List CardLimitAction) (s : CardLimitState)
    (h : hasInvariant s.limit) :
    hasInvariant ((acts.foldl cardLimitReducer s).limit) := by
  induction acts generalizing s with
  | nil => exact h
  | cons a rest ih => exact ih _ (cardLimitReducer_keeps_invariant s a h)

lemma hasInvariantJS_toJS (l : CardLimit) (h : hasInvariant l) :
    hasInvariantJS l.toJS := by
  simp only [hasInvariantJS, CardLimit.toJS, JSNum.sub, JSNum.eqb, beq_iff_eq]
  exact h

lemma validateLimitJS_toJS (l : CardLimit) (A : JSNum) :
    CardLimitDomainJS.validateLimit l.toJS A
      = (CardLimitDomain.validateLimit l A).map LimitError.toJS := by
  cases A with
  | nan => rfl
  | num q =>
    simp only [CardLimitDomainJS.validateLimit, CardLimitDomain.validateLimit,
      CardLimit.toJS, JSNum.isNaNb, JSNum.ltb, JSNum.gtb]
    split_ifs <;> simp [LimitError.toJS]

lemma canUpdateToJS_toJS (l : CardLimit) (A : JSNum) :
    CardLimitDomainJS.canUpdateTo l.toJS A = CardLimitDomain.canUpdateTo l A := by
  cases A <;> rfl

lemma elapse_fires (n : ℕ) : ∀ st : ToastState, 0 < n →
    elapse n { state := st, autoHideTimer := some n }
      = { state := ToastState.hidden, autoHideTimer := none } := by
  induction n with
  | zero => intro st h; exact absurd h (lt_irrefl 0)
  | succ k ih =>
    intro st _
    cases k with
    | zero => simp [elapse, tickMs, hideToast]
    | succ m =>
      have ht : tickMs { state := st, autoHideTimer := some (m + 2) }
          = { state := st, autoHideTimer := some (m + 1) } := by
        simp [tickMs]
      show elapse (m + 1) (tickMs { state := st, autoHideTimer := some (m + 2) })
          = { state := ToastState.hidden, autoHideTimer := none }
      rw [ht]
      exact ih st (Nat.succ_pos m)

lemma faqByIdHandler_statuses (r : FaqByIdRequest) :
    (faqByIdHandler r).status ∈ ([200, 400, 404, 405] : List ℕ) ∧
    (faqByIdHandler r).body.success = decide ((faqByIdHandler r).status = 200) := by
  rcases r with ⟨m, id⟩
  by_cases hm : m = "GET"
  · rcases id with - | v
    · simp [faqByIdHandler, hm, ApiResponse.err]
    · rcases v with s | l
      · cases hs : s == ""
        · cases hf : findFAQById s <;>
            simp [faqByIdHandler, hm, hs, hf, ApiResponse.err, ApiResponse.ok]
        · simp [faqByIdHandler, hm, hs, ApiResponse.err]
      · simp [faqByIdHandler, hm, ApiResponse.err]
  · simp [faqByIdHandler, hm, ApiResponse.err]

lemma faqsHandler_statuses (q : FaqsRequest) :
    (faqsHandler q).response.status ∈ ([200, 405] : List ℕ) ∧
    (faqsHandler q).response.body.success
      = decide ((faqsHandler q).response.status = 200) := by
  rcases q with ⟨m, se, ca, so⟩
  by_cases hm : m = "GET"
  · simp [faqsHandler, hm, ApiResponse.ok]
  · simp [faqsHandler, hm, ApiResponse.err]

/-! ## Claims -/

/-- C1 (counterexample): the claim "for every CardLimit record and every
amount A with A > maxAllowedLimit, validateLimit returns the above-maximum
message" fails as stated.  On the record with minAllowedLimit = 100 and
maxAllowedLimit = 50 (reachable via useCardLimit with initialUsedAmount =
100, maxLimit = 50) and A = 70 > maxAllowedLimit, the validator checks the
minimum first and returns the below-minimum message instead. -/
theorem C1_cex :
    JSNum.gtb (.num 70) (.num (⟨100, 100, 0, 100, 50⟩ : CardLimit).maxAllowedLimit) = true ∧
    CardLimitDomain.validateLimit ⟨100, 100, 0, 100, 50⟩ (.num 70)
      = some (.belowMinimum 100) ∧
    CardLimitDomain.validateLimit ⟨100, 100, 0, 100, 50⟩ (.num 70)
      ≠ some (.aboveMaximum (⟨100, 100, 0, 100, 50⟩ : CardLimit).maxAllowedLimit) := by
  refine ⟨by decide, by decide, by decide⟩

/-- C1 (amended): for every CardLimit record whose minAllowedLimit is at
most its maxAllowedLimit, and every amount A > maxAllowedLimit,
validateLimit returns the above-maximum message. -/
theorem C1_validateLimit_above_max (limit : CardLimit) (A : ℚ)
    (hminmax : limit.minAllowedLimit ≤ limit.maxAllowedLimit)
    (hA : limit.maxAllowedLimit < A) :
    CardLimitDomain.validateLimit limit (.num A)
      = some (.aboveMaximum limit.maxAllowedLimit) := by
  have h2 : JSNum.ltb (.num A) (.num limit.minAllowedLimit) = false := by
    simp only [JSNum.ltb, decide_eq_false_iff_not, not_lt]
    linarith
  have h3 : JSNum.gtb (.num A) (.num limit.maxAllowedLimit) = true := by
    simp only [JSNum.gtb, decide_eq_true_eq]
    exact hA
  simp [CardLimitDomain.validateLimit, JSNum.isNaNb, h2, h3]

/-- C1 (witness): the amended theorem applied to the limit created from
usedAmount 4000 and the amount 60000. -/
theorem C1_witness :
    (CardLimitDomain.create 4000).minAllowedLimit
      ≤ (CardLimitDomain.create 4000).maxAllowedLimit ∧
    (CardLimitDomain.create 4000).maxAllowedLimit < 60000 ∧
    CardLimitDomain.validateLimit (CardLimitDomain.create 4000) (.num 60000)
      = some (.aboveMaximum (CardLimitDomain.create 4000).maxAllowedLimit) :=
  ⟨by decide, by decide,
    C1_validateLimit_above_max (CardLimitDomain.create 4000) 60000 (by decide) (by decide)⟩

/-- C2 (counterexample): the claim "for every CardLimit record and every
amount A with usedAmount ≤ A ≤ maxAllowedLimit, validateLimit returns null"
fails as stated: the validator compares against minAllowedLimit, not
usedAmount.  On the record with usedAmount = 0, minAllowedLimit = 100,
maxAllowedLimit = 1000 and A = 50, the amount is within the claimed range
but the below-minimum message is returned. -/
theorem C2_cex :
    (⟨0, 0, 0, 100, 1000⟩ : CardLimit).usedAmount ≤ 50 ∧
    (50 : ℚ) ≤ (⟨0, 0, 0, 100, 1000⟩ : CardLimit).maxAllowedLimit ∧
    CardLimitDomain.validateLimit ⟨0, 0, 0, 100, 1000⟩ (.num 50)
      = some (.belowMinimum 0) := by
  refine ⟨by decide, by decide, by decide⟩

/-- C2 (amended): for every CardLimit record with minAllowedLimit =
usedAmount (which holds for every record the application constructs) and
every amount A with usedAmount ≤ A ≤ maxAllowedLimit, validateLimit
returns no error. -/
theorem C2_validateLimit_in_range (limit : CardLimit) (A : ℚ)
    (hmin : limit.minAllowedLimit = limit.usedAmount)
    (h1 : limit.usedAmount ≤ A) (h2 : A ≤ limit.maxAllowedLimit) :
    CardLimitDomain.validateLimit limit (.num A) = none := by
  have hlt : JSNum.ltb (.num A) (.num limit.minAllowedLimit) = false := by
    simp only [JSNum.ltb, decide_eq_false_iff_not, not_lt]
    rw [hmin]; exact h1
  have hgt : JSNum.gtb (.num A) (.num limit.maxAllowedLimit) = false := by
    simp only [JSNum.gtb, decide_eq_false_iff_not, not_lt]
    exact h2
  simp [CardLimitDomain.validateLimit, JSNum.isNaNb, hlt, hgt]

/-- C2 (witness): the amended theorem applied to the limit created from
usedAmount 4000 and the amount 10000. -/
theorem C2_witness :
    (CardLimitDomain.create 4000).minAllowedLimit = (CardLimitDomain.create 4000).usedAmount ∧
    (CardLimitDomain.create 4000).usedAmount ≤ 10000 ∧
    (10000 : ℚ) ≤ (CardLimitDomain.create 4000).maxAllowedLimit ∧
    CardLimitDomain.validateLimit (CardLimitDomain.create 4000) (.num 10000) = none :=
  ⟨rfl, by decide, by decide,
    C2_validateLimit_in_range (CardLimitDomain.create 4000) 10000 rfl (by decide) (by decide)⟩

/-- C3 (counterexample): the claim "for every CardLimit record and every
amount A with A < usedAmount, validateLimit returns the below-minimum
message" fails as stated: the validator compares against minAllowedLimit.
On the record with minAllowedLimit = 0, usedAmount = 100, maxAllowedLimit =
1000 and A = 50 < usedAmount, validation succeeds with no message. -/
theorem C3_cex :
    (50 : ℚ) < (⟨100, 100, 0, 0, 1000⟩ : CardLimit).usedAmount ∧
    CardLimitDomain.validateLimit ⟨100, 100, 0, 0, 1000⟩ (.num 50) = none := by
  refine ⟨by decide, by decide⟩

/-- C3 (amended): for every CardLimit record with minAllowedLimit =
usedAmount (which holds for every record the application constructs) and
every amount A < usedAmount, validateLimit returns the below-minimum
message. -/
theorem C3_validateLimit_below_used (limit : CardLimit) (A : ℚ)
    (hmin : limit.minAllowedLimit = limit.usedAmount)
    (hA : A < limit.usedAmount) :
    CardLimitDomain.validateLimit limit (.num A)
      = some (.belowMinimum limit.usedAmount) := by
  have hlt : JSNum.ltb (.num A) (.num limit.minAllowedLimit) = true := by
    simp only [JSNum.ltb, decide_eq_true_eq]
    rw [hmin]; exact hA
  simp [CardLimitDomain.validateLimit, JSNum.isNaNb, hlt]

/-- C3 (witness): the amended theorem applied to the limit created from
usedAmount 4000 and the amount 1000. -/
theorem C3_witness :
    (CardLimitDomain.create 4000).minAllowedLimit = (CardLimitDomain.create 4000).usedAmount ∧
    (1000 : ℚ) < (CardLimitDomain.create 4000).usedAmount ∧
    CardLimitDomain.validateLimit (CardLimitDomain.create 4000) (.num 1000)
      = some (.belowMinimum (CardLimitDomain.create 4000).usedAmount) :=
  ⟨rfl, by decide,
    C3_validateLimit_below_used (CardLimitDomain.create 4000) 1000 rfl (by decide)⟩

/-- C4 (counterexample): the invariant fails as claimed over every
reachable value: create(NaN) — reachable through useCardLimit with
initialUsedAmount = NaN — sets availableAmount to 0 while currentLimit −
usedAmount is NaN − NaN = NaN, and 0 === NaN is false in JavaScript. -/
theorem C4_cex :
    (CardLimitDomainJS.create .nan).availableAmount = .num 0 ∧
    (CardLimitDomainJS.create .nan).currentLimit.sub
      (CardLimitDomainJS.create .nan).usedAmount = .nan ∧
    JSNum.eqb (CardLimitDomainJS.create .nan).availableAmount
      ((CardLimitDomainJS.create .nan).currentLimit.sub
        (CardLimitDomainJS.create .nan).usedAmount) = false ∧
    ¬ hasInvariantJS (CardLimitDomainJS.create .nan) := by
  refine ⟨rfl, rfl, rfl, ?_⟩
  simp [hasInvariantJS, CardLimitDomainJS.create, JSNum.sub, JSNum.eqb]

/-- C4 (amended): every CardLimit value reachable through the public
operations with finite numeric inputs — create(u) for finite u,
withNewLimit(l, a) for finite a and any record l whose usedAmount is not
NaN, and every state the useCardLimit reducer produces from its initial
state under any sequence of actions (all of whose numeric payloads are
finite) — satisfies availableAmount = currentLimit − usedAmount under
JavaScript strict equality. -/
theorem C4_invariant_finite :
    (∀ u : ℚ, hasInvariantJS (CardLimitDomainJS.create (.num u))) ∧
    (∀ (l : CardLimitJS) (a : ℚ), l.usedAmount.isNaNb = false →
      hasInvariantJS (CardLimitDomainJS.withNewLimit l (.num a))) ∧
    (∀ (opts : UseCardLimitOptions) (acts : List CardLimitAction),
      hasInvariantJS (((acts.foldl cardLimitReducer (initialState opts)).limit).toJS)) := by
  refine ⟨?_, ?_, ?_⟩
  · intro u
    simp [hasInvariantJS, CardLimitDomainJS.create, JSNum.sub, JSNum.eqb]
  · intro l a hl
    cases hused : l.usedAmount with
    | nan => rw [hused] at hl; simp [JSNum.isNaNb] at hl
    | num q =>
      simp [hasInvariantJS, CardLimitDomainJS.withNewLimit, hused, JSNum.sub, JSNum.eqb]
  · intro opts acts
    apply hasInvariantJS_toJS
    apply foldl_reducer_invariant
    simp [hasInvariant, initialState, CardLimitDomain.create]

/-- C4 (witness): the amended theorem applied to a concrete record with
finite usedAmount and the finite amount 10000. -/
theorem C4_witness :
    ((⟨.num 6000, .num 4000, .num 2000, .num 4000,
        .num 50000⟩ : CardLimitJS).usedAmount.isNaNb = false) ∧
    hasInvariantJS (CardLimitDomainJS.withNewLimit
      ⟨.num 6000, .num 4000, .num 2000, .num 4000, .num 50000⟩ (.num 10000)) :=
  ⟨rfl, C4_invariant_finite.2.1
    ⟨.num 6000, .num 4000, .num 2000, .num 4000, .num 50000⟩ 10000 rfl⟩

/-- C5 (counterexample): the claim that the FAQ API handlers produce no
error response other than the 404 and the 500 envelopes fails: a non-GET
request receives a 405 METHOD_NOT_ALLOWED error envelope, and a request
with a missing id receives a 400 INVALID_REQUEST error envelope. -/
theorem C5_cex :
    faqByIdHandler { method := "POST", id := some (.str "faq-1") }
      = { status := 405,
          body := ApiResponse.err "METHOD_NOT_ALLOWED" "Apenas GET é permitido" } ∧
    (faqByIdHandler { method := "GET", id := none }).status = 400 ∧
    (faqByIdHandler { method := "GET", id := none }).body.success = false := by
  refine ⟨by decide, by decide, by decide⟩

/-- C5 (amended): besides the user-facing validation message, the error
responses of the FAQ API handlers are exactly the error JSON envelopes with
status 400 (invalid id), 404 (id not found) and 405 (method not allowed),
plus the 500 catch-all, which is unreachable in this pure model; every
non-200 reply carries an error envelope and every 200 reply a success
envelope. -/
theorem C5_error_envelopes (r : FaqByIdRequest) (q : FaqsRequest) :
    (faqByIdHandler r).status ∈ ([200, 400, 404, 405] : List ℕ) ∧
    (faqByIdHandler r).body.success = decide ((faqByIdHandler r).status = 200) ∧
    (faqsHandler q).response.status ∈ ([200, 405] : List ℕ) ∧
    (faqsHandler q).response.body.success
      = decide ((faqsHandler q).response.status = 200) := by
  obtain ⟨ha, hb⟩ := faqByIdHandler_statuses r
  obtain ⟨hc, hd⟩ := faqsHandler_statuses q
  exact ⟨ha, hb, hc, hd⟩

/-- C6 (code bug): on the request GET /api/faqs with search = "   " (three
spaces) and no other parameters, `searchFAQs` returns the module array
`MOCK_FAQS` itself (whitespace is truthy but trims to the empty query), and
the handler then sorts that array in place with the default helpful
ordering, so after the request the module-level MOCK_FAQS array is
permanently reordered — contradicting the code comment ("cópia para não
mutar original") and the specification ("read-only at runtime"). -/
theorem C6_mock_mutated :
    ((faqsHandler ⟨"GET", some (.str "   "), none, none⟩).mockAfter).map FAQ.id
      = ["faq-1", "faq-4", "faq-2", "faq-5", "faq-3"] ∧
    MOCK_FAQS.map FAQ.id = ["faq-1", "faq-2", "faq-3", "faq-4", "faq-5"] ∧
    ((faqsHandler ⟨"GET", some (.str "   "), none, none⟩).mockAfter).map FAQ.id
      ≠ MOCK_FAQS.map FAQ.id := by
  refine ⟨by decide, by decide, by decide⟩

/-- C7 (counterexample): the claim "for every search string that
case-insensitively occurs in no question, answer or tags and is non-empty
after trimming, searchFAQs returns the empty list" fails as stated: the
string composed of "limite" and a trailing tab occurs nowhere (the data
contains no tabs) and is non-empty after trimming, yet searchFAQs matches
its trimmed form "limite" and returns a non-empty list. -/
theorem C7_cex :
    jsTrim (jsLower "limite\t") ≠ "" ∧
    (∀ faq ∈ MOCK_FAQS,
      jsIncludes (jsLower faq.question) (jsLower "limite\t") = false ∧
      jsIncludes (jsLower faq.answer) (jsLower "limite\t") = false ∧
      ∀ tag ∈ faq.tags, jsIncludes (jsLower tag) (jsLower "limite\t") = false) ∧
    searchFAQs "limite\t" ≠ [] := by
  refine ⟨by decide, by decide, by decide⟩

/-- C7 (amended): (1) every FAQ whose question contains the search string
as a substring is in the result of searchFAQs; (2) if the lower-cased,
trimmed query is non-empty and matches no record (its occurrence tested
against the lower-cased question, answer and tags), searchFAQs returns the
empty list. -/
theorem C7_search (s : String) :
    (∀ faq : FAQ, faq ∈ MOCK_FAQS → SegOccurs s.data faq.question.data →
      faq ∈ searchFAQs s) ∧
    (jsTrim (jsLower s) ≠ "" →
      (∀ faq ∈ MOCK_FAQS, searchMatches (jsTrim (jsLower s)) faq = false) →
      searchFAQs s = []) := by
  constructor
  · intro faq hmem hocc
    by_cases hq : jsTrim (jsLower s) = ""
    · simp only [searchFAQs, hq, if_pos]
      exact hmem
    · simp only [searchFAQs, if_neg hq]
      refine List.mem_filter.mpr ⟨hmem, ?_⟩
      have hlow : SegOccurs (jsLower s).data (jsLower faq.question).data :=
        SegOccurs_map jsCharLower hocc
      have htrim : SegOccurs (jsTrim (jsLower s)).data (jsLower s).data :=
        trimChars_occurs (jsLower s).data
      have hfull : SegOccurs (jsTrim (jsLower s)).data (jsLower faq.question).data :=
        SegOccurs_trans htrim hlow
      have hq2 : jsIncludes (jsLower faq.question) (jsTrim (jsLower s)) = true :=
        (segMatch_iff _ _).mpr hfull
      simp [searchMatches, hq2]
  · intro hne hall
    simp only [searchFAQs, if_neg hne]
    exact List.filter_eq_nil_iff.mpr (fun faq hmem => by simp [hall faq hmem])

/-- C7 (witness): the amended theorem applied to the search string
"aumentar" (a substring of the first question) and to the nonsense search
string "xyzzy". -/
theorem C7_search_witness :
    SegOccurs "aumentar".data mockFaq1.question.data ∧
    mockFaq1 ∈ searchFAQs "aumentar" ∧
    jsTrim (jsLower "xyzzy") ≠ "" ∧
    searchFAQs "xyzzy" = [] := by
  have hseg : SegOccurs "aumentar".data mockFaq1.question.data :=
    (segMatch_iff _ _).mp (by decide)
  refine ⟨hseg, ?_, by decide, ?_⟩
  · exact (C7_search "aumentar").1 mockFaq1 (by simp [MOCK_FAQS]) hseg
  · exact (C7_search "xyzzy").2 (by decide) (by decide)

/-- C8: every toast shown via the ToastProvider becomes visible with the
provider default duration, and every visible toast state with positive
duration returns to the hidden state once its duration has elapsed: the
auto-hide timeout scheduled by the Toast component fires the close callback
after exactly the duration. -/
theorem C8_toast_autohide :
    (∀ (m : String) (t : ToastType) (p : ToastPosition) (d : ℕ), 0 < d →
      (elapse d (runAutoHideEffect (.visible m t p d))).state = .hidden) ∧
    (∀ (cfg : ToastConfig) (m : String) (t : ToastType), 0 < cfg.defaultDuration →
      (elapse cfg.defaultDuration
        (runAutoHideEffect (showToast cfg m t none))).state = .hidden) := by
  have key : ∀ (m : String) (t : ToastType) (p : ToastPosition) (d : ℕ), 0 < d →
      (elapse d (runAutoHideEffect (.visible m t p d))).state = .hidden := by
    intro m t p d hd
    have heff : runAutoHideEffect (.visible m t p d)
        = { state := .visible m t p d, autoHideTimer := some d } := by
      simp [runAutoHideEffect, hd]
    rw [heff, elapse_fires d _ hd]
  exact ⟨key, fun cfg m t hcfg => key m t cfg.defaultPosition cfg.defaultDuration hcfg⟩

/-- C8 (witness): the theorem applied to a toast with the application
default duration of 4000 milliseconds. -/
theorem C8_witness :
    0 < (4000 : ℕ) ∧
    (elapse 4000
      (runAutoHideEffect (.visible "Limite atualizado" .success .top 4000))).state
      = .hidden :=
  ⟨by decide, C8_toast_autohide.1 "Limite atualizado" .success .top 4000 (by decide)⟩

/-- C9 (counterexample): the claim fails over every record: on the record
created from NaN (whose minAllowedLimit is NaN, reachable through
useCardLimit with initialUsedAmount = NaN), the amount 5 passes
validateLimit (both 5 < NaN and 5 > 50000 are false) while canUpdateTo
returns false (5 >= NaN is false), so the two checks disagree. -/
theorem C9_cex :
    (CardLimitDomainJS.create .nan).minAllowedLimit = .nan ∧
    CardLimitDomainJS.validateLimit (CardLimitDomainJS.create .nan) (.num 5) = none ∧
    CardLimitDomainJS.canUpdateTo (CardLimitDomainJS.create .nan) (.num 5) = false := by
  refine ⟨rfl, by decide, by decide⟩

/-- C9 (amended): for every CardLimit record whose minAllowedLimit and
maxAllowedLimit are not NaN (true of every record the application
constructs from finite inputs) and every number A, NaN included, the
message-producing validator accepts (returns none) exactly when the
boolean check canUpdateTo returns true. -/
theorem C9_validate_iff_canUpdate (l : CardLimitJS)
    (hmin : l.minAllowedLimit.isNaNb = false)
    (hmax : l.maxAllowedLimit.isNaNb = false) (A : JSNum) :
    CardLimitDomainJS.validateLimit l A = none
      ↔ CardLimitDomainJS.canUpdateTo l A = true := by
  obtain ⟨cur, used2, avail, mn, mx⟩ := l
  cases mn with
  | nan => simp [JSNum.isNaNb] at hmin
  | num qmin =>
    cases mx with
    | nan => simp [JSNum.isNaNb] at hmax
    | num qmax =>
      cases A with
      | nan =>
        simp [CardLimitDomainJS.validateLimit, CardLimitDomainJS.canUpdateTo,
          JSNum.isNaNb, JSNum.geb, JSNum.leb]
      | num q =>
        simp only [CardLimitDomainJS.validateLimit, CardLimitDomainJS.canUpdateTo,
          JSNum.isNaNb, JSNum.ltb, JSNum.gtb, JSNum.geb, JSNum.leb,
          Bool.not_false, Bool.and_true, Bool.and_eq_true, decide_eq_true_eq]
        split_ifs with h1 h2 <;>
          constructor <;> intro h <;> first
            | linarith [h.1, h.2]
            | (exact ⟨by linarith, by linarith⟩)
            | simp_all

/-- C9 (witness): the amended theorem applied to the record created from
the finite amount 4000 and to the amount NaN. -/
theorem C9_witness :
    ((CardLimitDomainJS.create (.num 4000)).minAllowedLimit.isNaNb = false) ∧
    ((CardLimitDomainJS.create (.num 4000)).maxAllowedLimit.isNaNb = false) ∧
    (CardLimitDomainJS.validateLimit (CardLimitDomainJS.create (.num 4000)) .nan = none
      ↔ CardLimitDomainJS.canUpdateTo (CardLimitDomainJS.create (.num 4000)) .nan = true) :=
  ⟨rfl, rfl, C9_validate_iff_canUpdate (CardLimitDomainJS.create (.num 4000)) rfl rfl .nan⟩

/-- C10: for every search string that is empty after lower-casing and
trimming, searchFAQs returns the entire MOCK_FAQS list in its original
order. -/
theorem C10_empty_query_returns_all (s : String) (h : jsTrim (jsLower s) = "") :
    searchFAQs s = MOCK_FAQS := by
  simp only [searchFAQs, h, if_pos]

/-- C10 (witness): the theorem applied to a whitespace-only search
string. -/
theorem C10_witness : jsTrim (jsLower "   ") = "" ∧ searchFAQs "   " = MOCK_FAQS :=
  ⟨by decide, C10_empty_query_returns_all "   " (by decide)⟩
